import Mathlib

/-!
# Verification of the Coze chat client (scripts/coze_client.py)

Shallow embedding of the Chat Session Engine of the repository:
the server-sent-event stream decoder `stream_chat` and the bounded
completion poller `chat_with_polling`, translated from
`src/skills/coze-api/coze-api/scripts/coze_client.py`.

Modelling conventions:
- Python dictionaries whose fields are accessed by `.get` / `[...]` are
  embedded as structures whose fields are `Option`-valued; `d.get(k, v)`
  becomes `(field).getD v` and `d[k]` becomes a `match` whose missing
  branch is an uncaught `KeyError`.
- The network is an explicit environment: the dispatch envelope and, for
  each status check and each message fetch, the envelope the remote
  returns.
- Observable behaviour of a run is the returned value, the list of lines
  printed, and the trace of remote calls made (with their arguments).
- `time.sleep` only blocks; it has no observable effect in the model.
-/

namespace Coze

/-- The `data` object of a dispatch (`chat`) envelope: the remote
conversation identifier and the chat identifier (`id`).  Either field may
be absent. -/
structure DispatchData where
  conversation_id : Option String
  id : Option String
deriving Repr, DecidableEq

/-- Envelope returned by the non-streaming `chat` dispatch: a `data`
object, possibly absent (`'data' not in result` in the source). -/
structure ChatEnvelope where
  data : Option DispatchData
deriving Repr, DecidableEq

/-- The `data` object of a `retrieve_chat` status envelope. -/
structure StatusData where
  status : Option String
deriving Repr, DecidableEq

/-- Envelope returned by `retrieve_chat`. -/
structure StatusEnvelope where
  data : Option StatusData
deriving Repr, DecidableEq

/-- One message of a `get_messages` response: role, type and content,
each possibly absent (the source reads them with `.get`). -/
structure Message where
  role : Option String
  type : Option String
  content : Option String
deriving Repr, DecidableEq

/-- Envelope returned by `get_messages`: `message_data.get('data', [])`. -/
structure MessagesEnvelope where
  data : Option (List Message)
deriving Repr, DecidableEq

/-- The payload of one parsed stream event (`json.loads` result), as the
source reads it: an `event` discriminator and a nested `data.content`. -/
structure DeltaData where
  content : Option String
deriving Repr, DecidableEq

/-- A parsed JSON stream frame: `data.get('event')` and `data.get('data')`. -/
structure StreamEvent where
  event : Option String
  data : Option DeltaData
deriving Repr, DecidableEq

/-- Python `s.startswith(pre)`: character-level prefix test. -/
def pyStartsWith (s pre : String) : Bool := pre.data.isPrefixOf s.data

/-- Python `s[n:]` on characters: drop the first `n` characters. -/
def pyDrop (s : String) (n : Nat) : String := ⟨s.data.drop n⟩

/-- Python `s.strip()`: remove leading and trailing whitespace. -/
def pyStrip (s : String) : String :=
  ⟨((s.data.dropWhile Char.isWhitespace).reverse.dropWhile Char.isWhitespace).reverse⟩

/-- The stream decoder of `stream_chat` (source lines 126-147), as a
function of the ordered list of decoded lines of the chunked body and of
the JSON parser (`json.loads`, abstract: `none` models a
`json.JSONDecodeError`).  Per line: skip empty lines (`if line:`), skip
lines not starting with `data:`, parse the remainder
(`line_str.split('data:', 1)[1].strip()`: since the line starts with the
5-character `data:`, the split remainder is the line with those 5
characters dropped, then stripped); on parse failure skip; on a
`conversation.message.delta` event yield the non-empty content; on a
`conversation.message.completed` event stop (`break`). -/
def stream_chat (parseJson : String → Option StreamEvent) : List String → List String
  | [] => []
  | line :: rest =>
    if line = "" then stream_chat parseJson rest
    else if pyStartsWith line "data:" then
      let json_str := pyStrip (pyDrop line 5)
      match parseJson json_str with
      | none => stream_chat parseJson rest
      | some data =>
        if data.event = some "conversation.message.delta" then
          let content := (data.data.bind DeltaData.content).getD ""
          if content = "" then stream_chat parseJson rest
          else content :: stream_chat parseJson rest
        else if data.event = some "conversation.message.completed" then []
        else stream_chat parseJson rest
    else stream_chat parseJson rest

/-- A concrete JSON parser for witness runs: maps three fixed payload
strings to a delta event with content A, a delta event with content B,
and a completion event; everything else fails to parse. -/
def demoParse : String → Option StreamEvent := fun s =>
  if s = "evA" then some ⟨some "conversation.message.delta", some ⟨some "A"⟩⟩
  else if s = "evB" then some ⟨some "conversation.message.delta", some ⟨some "B"⟩⟩
  else if s = "done" then some ⟨some "conversation.message.completed", none⟩
  else none

/-- One remote call made by the poller, with the arguments it was given:
`retrieve_chat(conv_id, chat_id)` or `get_messages(conv_id, chat_id)`. -/
inductive Call where
  | retrieveChat (conversation_id chat_id : String)
  | getMessages (conversation_id chat_id : String)
deriving Repr, DecidableEq

/-- How a Python call ends: a normal return of `Optional[str]`, or an
uncaught `KeyError` for the named key. -/
inductive PyResult where
  | ret (val : Option String)
  | keyError (key : String)
deriving Repr, DecidableEq

/-- The observable behaviour of one `chat_with_polling` run: the result,
the lines printed, and the trace of remote calls in order. -/
structure PyRun where
  result : PyResult
  log : List String
  calls : List Call
deriving Repr, DecidableEq

/-- The remote environment of one polling session: the envelope the
dispatch (`chat`) returns, the envelope the i-th `retrieve_chat` call
returns, and the envelope the j-th `get_messages` call returns. -/
structure PollEnv where
  chatResult : ChatEnvelope
  statusResponses : Nat → StatusEnvelope
  messageResponses : Nat → MessagesEnvelope

/-- `status_data.get('data', {}).get('status', '')` (source line 225). -/
def statusOf (e : StatusEnvelope) : String :=
  (e.data.bind StatusData.status).getD ""

/-- The message scan of source lines 233-235: first message with role
`assistant` and type `answer`, returning `msg.get('content', '')`;
`none` when no message matches (the `for` falls through). -/
def findAnswer : List Message → Option String
  | [] => none
  | msg :: rest =>
    if msg.role = some "assistant" ∧ msg.type = some "answer" then
      some (msg.content.getD "")
    else findAnswer rest

/-- Rendering of a dispatch envelope used in the failure print
`f"发起对话失败: {result}"` (the f-string interpolates the raw envelope). -/
def reprChatEnvelope : ChatEnvelope → String
  | ⟨none⟩ => "(data = missing)"
  | ⟨some d⟩ =>
    "(data = (conversation_id = " ++ (d.conversation_id.getD "None")
      ++ ", id = " ++ (d.id.getD "None") ++ "))"

/-- The full diagnostic line printed on a dispatch failure. -/
def dispatchMsg (e : ChatEnvelope) : String :=
  "发起对话失败: " ++ reprChatEnvelope e

/-- The polling loop of source lines 221-242: `fuel` iterations remain,
`i` status checks and `m` message fetches were already made, `calls` and
`log` accumulate the trace.  Each iteration sleeps, fetches the status
with the dispatched pair, and branches: `completed` fetches the message
list once and returns the first assistant answer if present (continuing
otherwise), `failed` prints `对话失败` and returns `None`, anything else
continues.  An exhausted budget prints `轮询超时` and returns `None`. -/
def pollLoop (env : PollEnv) (conv_id chat_id : String) :
    Nat → Nat → Nat → List Call → List String → PyRun
  | 0, _, _, calls, log => ⟨PyResult.ret none, log ++ ["轮询超时"], calls⟩
  | fuel + 1, i, m, calls, log =>
    let status := statusOf (env.statusResponses i)
    if status = "completed" then
      match findAnswer ((env.messageResponses m).data.getD []) with
      | some content =>
        ⟨PyResult.ret (some content), log,
          calls ++ [Call.retrieveChat conv_id chat_id, Call.getMessages conv_id chat_id]⟩
      | none =>
        pollLoop env conv_id chat_id fuel (i + 1) (m + 1)
          (calls ++ [Call.retrieveChat conv_id chat_id, Call.getMessages conv_id chat_id]) log
    else if status = "failed" then
      ⟨PyResult.ret none, log ++ ["对话失败"],
        calls ++ [Call.retrieveChat conv_id chat_id]⟩
    else
      pollLoop env conv_id chat_id fuel (i + 1) m
        (calls ++ [Call.retrieveChat conv_id chat_id]) log

/-- `chat_with_polling` (source lines 189-242).  Dispatch via `chat`; if
the envelope has no `data` field, print the failure line with the raw
envelope and return `None` (lines 213-215).  Otherwise read
`result['data']['conversation_id']` and `result['data']['id']` — a
missing key is an uncaught `KeyError` — and run the polling loop for
`max_retries` iterations. -/
def chat_with_polling (env : PollEnv) (max_retries : Nat) : PyRun :=
  match env.chatResult.data with
  | none => ⟨PyResult.ret none, [dispatchMsg env.chatResult], []⟩
  | some d =>
    match d.conversation_id with
    | none => ⟨PyResult.keyError "conversation_id", [], []⟩
    | some conv_id =>
      match d.id with
      | none => ⟨PyResult.keyError "id", [], []⟩
      | some chat_id => pollLoop env conv_id chat_id max_retries 0 0 [] []

/-- Status envelope with the given status string present. -/
def statusEnv (s : String) : StatusEnvelope := ⟨some ⟨some s⟩⟩

/-- A concrete environment: dispatch succeeds with pair (c0, h0), the
first two status checks report `in_progress`, the third `completed`, and
the message list holds a non-answer message followed by the answer. -/
def envHappy : PollEnv where
  chatResult := ⟨some ⟨some "c0", some "h0"⟩⟩
  statusResponses := fun i => if i < 2 then statusEnv "in_progress" else statusEnv "completed"
  messageResponses := fun _ =>
    ⟨some [⟨some "user", some "question", some "hi"⟩,
           ⟨some "assistant", some "answer", some "hello"⟩]⟩

/-- A call is a status check (`retrieve_chat`). -/
def isStatusCall : Call → Bool
  | Call.retrieveChat _ _ => true
  | Call.getMessages _ _ => false

/-- Dispatch envelope with a `data` object that has neither a
conversation identifier nor a chat identifier. -/
def envNoIds : PollEnv where
  chatResult := ⟨some ⟨none, none⟩⟩
  statusResponses := fun _ => statusEnv "in_progress"
  messageResponses := fun _ => ⟨some []⟩

/-- Dispatch envelope with no `data` field at all. -/
def envNoData : PollEnv where
  chatResult := ⟨none⟩
  statusResponses := fun _ => statusEnv "in_progress"
  messageResponses := fun _ => ⟨some []⟩

/-- Successful dispatch, every status check reports `in_progress`. -/
def envAllProgress : PollEnv where
  chatResult := ⟨some ⟨some "c1", some "h1"⟩⟩
  statusResponses := fun _ => statusEnv "in_progress"
  messageResponses := fun _ => ⟨some []⟩

/-- Successful dispatch, the first status check reports `failed`. -/
def envFailedFirst : PollEnv where
  chatResult := ⟨some ⟨some "c4", some "h4"⟩⟩
  statusResponses := fun _ => statusEnv "failed"
  messageResponses := fun _ => ⟨some []⟩

/-- Successful dispatch, every status envelope has no `data` object. -/
def envNoStatus : PollEnv where
  chatResult := ⟨some ⟨some "c2", some "h2"⟩⟩
  statusResponses := fun _ => ⟨none⟩
  messageResponses := fun _ => ⟨some []⟩

/-- Successful dispatch with pair (c3, h3); every status is `completed`;
the first message fetch returns an empty list, the second returns the
assistant answer `late`. -/
def envLateAnswer : PollEnv where
  chatResult := ⟨some ⟨some "c3", some "h3"⟩⟩
  statusResponses := fun _ => statusEnv "completed"
  messageResponses := fun j =>
    if j = 0 then ⟨some []⟩ else ⟨some [⟨some "assistant", some "answer", some "late"⟩]⟩

/-- Successful dispatch; status `completed` at once; the answer message
has role `assistant` and type `answer` but no `content` field. -/
def envNoContent : PollEnv where
  chatResult := ⟨some ⟨some "c5", some "h5"⟩⟩
  statusResponses := fun _ => statusEnv "completed"
  messageResponses := fun _ => ⟨some [⟨some "assistant", some "answer", none⟩]⟩

/-- Python truthiness of an `Optional[str]`: `None` and the empty string
are both falsy. -/
def truthy : Option String → Bool
  | none => false
  | some s => if s = "" then false else true

example : stream_chat demoParse ["data:evA", "data:evB", "data:done", "data:evA"] = ["A", "B"] := by
  decide

example : stream_chat demoParse ["not-a-frame", "data:junk", "data:evA"] = ["A"] := by
  decide

example :
    chat_with_polling envHappy 30 =
      ⟨PyResult.ret (some "hello"), [],
        [Call.retrieveChat "c0" "h0", Call.retrieveChat "c0" "h0",
         Call.retrieveChat "c0" "h0", Call.getMessages "c0" "h0"]⟩ := by
  decide

/-- Every call the loop ever makes carries the dispatched pair: any call
in the final trace was already in the accumulator or is one of the two
calls keyed by `(conv_id, chat_id)`. -/
lemma pollLoop_calls_mem (env : PollEnv) (conv_id chat_id : String) :
    ∀ (fuel i m : Nat) (calls : List Call) (log : List String)
      (c : Call), c ∈ (pollLoop env conv_id chat_id fuel i m calls log).calls →
      c ∈ calls ∨ c = Call.retrieveChat conv_id chat_id ∨ c = Call.getMessages conv_id chat_id := by
  intro fuel
  induction fuel with
  | zero =>
    intro i m calls log c hc
    exact Or.inl hc
  | succ fuel ih =>
    intro i m calls log c hc
    simp only [pollLoop] at hc
    split at hc
    · split at hc
      · rcases List.mem_append.1 hc with h | h
        · exact Or.inl h
        · simp only [List.mem_cons, List.mem_singleton, List.not_mem_nil, or_false] at h
          exact Or.inr h
      · rcases ih _ _ _ _ _ hc with h | h
        · rcases List.mem_append.1 h with h | h
          · exact Or.inl h
          · simp only [List.mem_cons, List.mem_singleton, List.not_mem_nil, or_false] at h
            exact Or.inr h
        · exact Or.inr h
    · split at hc
      · rcases List.mem_append.1 hc with h | h
        · exact Or.inl h
        · exact Or.inr (Or.inl (List.mem_singleton.1 h))
      · rcases ih _ _ _ _ _ hc with h | h
        · rcases List.mem_append.1 h with h | h
          · exact Or.inl h
          · exact Or.inr (Or.inl (List.mem_singleton.1 h))
        · exact Or.inr h

/-- The loop adds at most one status check per remaining iteration. -/
lemma pollLoop_statusCount (env : PollEnv) (conv_id chat_id : String) :
    ∀ (fuel i m : Nat) (calls : List Call) (log : List String),
      (pollLoop env conv_id chat_id fuel i m calls log).calls.countP isStatusCall ≤
        calls.countP isStatusCall + fuel := by
  intro fuel
  induction fuel with
  | zero =>
    intro i m calls log
    simp [pollLoop]
  | succ fuel ih =>
    intro i m calls log
    simp only [pollLoop]
    split
    · split
      · simp [List.countP_append, isStatusCall, List.countP_cons]
      · calc _ ≤ (calls ++ [Call.retrieveChat conv_id chat_id,
                    Call.getMessages conv_id chat_id]).countP isStatusCall + fuel := ih ..
          _ ≤ calls.countP isStatusCall + (fuel + 1) := by
              simp [List.countP_append, isStatusCall, List.countP_cons]
              omega
    · split
      · simp [List.countP_append, isStatusCall, List.countP_cons]
      · calc _ ≤ (calls ++ [Call.retrieveChat conv_id chat_id]).countP isStatusCall + fuel := ih ..
          _ ≤ calls.countP isStatusCall + (fuel + 1) := by
              simp [List.countP_append, isStatusCall, List.countP_cons]
              omega

/-- Outcome classification of the loop: either it returns some string and
prints nothing new, or it returns `None` having printed exactly one new
line, `对话失败` or `轮询超时`. -/
lemma pollLoop_outcomes (env : PollEnv) (conv_id chat_id : String) :
    ∀ (fuel i m : Nat) (calls : List Call) (log : List String),
      ((∃ s, (pollLoop env conv_id chat_id fuel i m calls log).result = PyResult.ret (some s)) ∧
        (pollLoop env conv_id chat_id fuel i m calls log).log = log) ∨
      ((pollLoop env conv_id chat_id fuel i m calls log).result = PyResult.ret none ∧
        ((pollLoop env conv_id chat_id fuel i m calls log).log = log ++ ["对话失败"] ∨
         (pollLoop env conv_id chat_id fuel i m calls log).log = log ++ ["轮询超时"])) := by
  intro fuel
  induction fuel with
  | zero =>
    intro i m calls log
    exact Or.inr ⟨rfl, Or.inr rfl⟩
  | succ fuel ih =>
    intro i m calls log
    simp only [pollLoop]
    split
    · split
      · exact Or.inl ⟨⟨_, rfl⟩, rfl⟩
      · exact ih ..
    · split
      · exact Or.inr ⟨rfl, Or.inl rfl⟩
      · exact ih ..

/-- If every status the loop will still see is neither `completed` nor
`failed`, the loop runs its budget out: it makes one status check per
iteration, no message fetch, prints `轮询超时` and returns `None`. -/
lemma pollLoop_timeout (env : PollEnv) (conv_id chat_id : String) :
    ∀ (fuel i m : Nat) (calls : List Call) (log : List String),
      (∀ j, i ≤ j → j < i + fuel →
        statusOf (env.statusResponses j) ≠ "completed" ∧
        statusOf (env.statusResponses j) ≠ "failed") →
      pollLoop env conv_id chat_id fuel i m calls log =
        ⟨PyResult.ret none, log ++ ["轮询超时"],
          calls ++ List.replicate fuel (Call.retrieveChat conv_id chat_id)⟩ := by
  intro fuel
  induction fuel with
  | zero =>
    intro i m calls log _
    simp [pollLoop]
  | succ fuel ih =>
    intro i m calls log h
    have hi := h i (Nat.le_refl i) (by omega)
    simp only [pollLoop]
    rw [if_neg hi.1, if_neg hi.2]
    rw [ih (i + 1) m (calls ++ [Call.retrieveChat conv_id chat_id]) log
      (fun j h1 h2 => h j (by omega) (by omega))]
    simp [List.replicate_succ]

/-- The scan of source lines 233-235 returns the content of the first
matching message: a prefix without assistant answers is skipped, and the
first message with role `assistant` and type `answer` wins. -/
lemma findAnswer_append (pre post : List Message) (msg : Message)
    (hpre : ∀ m2 ∈ pre, ¬(m2.role = some "assistant" ∧ m2.type = some "answer"))
    (hrole : msg.role = some "assistant") (htype : msg.type = some "answer") :
    findAnswer (pre ++ msg :: post) = some (msg.content.getD "") := by
  induction pre with
  | nil => simp [findAnswer, hrole, htype]
  | cons m2 pre ih =>
    have hm2 := hpre m2 (List.mem_cons_self m2 pre)
    simp only [List.cons_append, findAnswer, if_neg hm2]
    exact ih (fun m3 hm3 => hpre m3 (List.mem_cons_of_mem m2 hm3))

/-- A line that passes the `data:` prefix test is not empty. -/
lemma startsWithData_ne_empty (l : String) (h : pyStartsWith l "data:" = true) : l ≠ "" := by
  intro he
  subst he
  exact absurd h (by decide)

/-- C3: the stream decoder emits the non-empty content of each delta
event in arrival order and stops consuming frames at a completion event:
on frames [delta a, delta b, completed] followed by any further frames at
all, it yields exactly [a, b] — the frames after the completion event
never influence the output. -/
theorem c3_stream_delta_order_then_stop
    (p : String → Option StreamEvent) (la lb lc : String) (a b : String)
    (dc : Option DeltaData) (rest : List String)
    (hla : pyStartsWith la "data:" = true)
    (hpa : p (pyStrip (pyDrop la 5)) =
      some ⟨some "conversation.message.delta", some ⟨some a⟩⟩)
    (hane : a ≠ "")
    (hlb : pyStartsWith lb "data:" = true)
    (hpb : p (pyStrip (pyDrop lb 5)) =
      some ⟨some "conversation.message.delta", some ⟨some b⟩⟩)
    (hbne : b ≠ "")
    (hlc : pyStartsWith lc "data:" = true)
    (hpc : p (pyStrip (pyDrop lc 5)) =
      some ⟨some "conversation.message.completed", dc⟩) :
    stream_chat p (la :: lb :: lc :: rest) = [a, b] := by
  have hevne : ("conversation.message.completed" : String) ≠ "conversation.message.delta" := by
    decide
  simp [stream_chat, startsWithData_ne_empty la hla, startsWithData_ne_empty lb hlb,
    startsWithData_ne_empty lc hlc, hla, hlb, hlc, hpa, hpb, hpc, hane, hbne, hevne]

/-- Closed witness for C3: a concrete parser and concrete frames, with a
trailing frame after the completion event that is not consumed. -/
theorem c3_witness :
    pyStartsWith "data:evA" "data:" = true ∧
    stream_chat demoParse ["data:evA", "data:evB", "data:done", "data:evA"] = ["A", "B"] :=
  ⟨by decide,
    c3_stream_delta_order_then_stop demoParse "data:evA" "data:evB" "data:done" "A" "B"
      none ["data:evA"]
      (by decide) (by decide) (by decide) (by decide) (by decide) (by decide)
      (by decide) (by decide)⟩

/-- C4: a malformed frame — an empty line, a line without the `data:`
prefix, or a line whose payload fails to parse as JSON — is discarded and
decoding continues with the remaining frames exactly as if the frame were
absent; in particular it never terminates the stream, so
[malformed, delta x] yields [x]. -/
theorem c4_malformed_frame_skipped
    (p : String → Option StreamEvent) (lm : String) (rest : List String)
    (hm : lm = "" ∨ pyStartsWith lm "data:" = false ∨ p (pyStrip (pyDrop lm 5)) = none) :
    stream_chat p (lm :: rest) = stream_chat p rest := by
  rcases hm with h | h | h
  · simp [stream_chat, h]
  · simp [stream_chat, h]
  · by_cases he : lm = ""
    · simp [stream_chat, he]
    · simp [stream_chat, he, h]

/-- Closed witness for C4, matching the spec scenario: a malformed line
followed by delta("X") yields exactly ["X"], for both malformed shapes (a
non-`data:` line and a `data:` line with an unparseable payload). -/
theorem c4_witness :
    (pyStartsWith "not-a-frame" "data:" = false ∧
      demoParse (pyStrip (pyDrop "data:junk" 5)) = none) ∧
    stream_chat demoParse ["not-a-frame", "data:evA"] =
      stream_chat demoParse ["data:evA"] ∧
    stream_chat demoParse ["data:junk", "data:evA"] =
      stream_chat demoParse ["data:evA"] ∧
    stream_chat demoParse ["data:evA"] = ["A"] :=
  ⟨⟨by decide, by decide⟩,
    c4_malformed_frame_skipped demoParse "not-a-frame" ["data:evA"] (Or.inr (Or.inl (by decide))),
    c4_malformed_frame_skipped demoParse "data:junk" ["data:evA"] (Or.inr (Or.inr (by decide))),
    by decide⟩

/-- Counterexample for C2: this envelope lacks both the conversation
identifier and the chat identifier, yet its `data` field is present, so
the guard `'data' not in result` does not fire; the run ends in an
uncaught `KeyError` on `conversation_id` (source line 217) — an
exception, not the returned dispatch-failure outcome the claim
describes.  No status or message call is made. -/
theorem c2_counterexample :
    envNoIds.chatResult.data = some ⟨none, none⟩ ∧
    chat_with_polling envNoIds 5 = ⟨PyResult.keyError "conversation_id", [], []⟩ ∧
    PyResult.keyError "conversation_id" ≠ PyResult.ret none := by
  decide

/-- C2 as amended: an envelope with no `data` field yields the
dispatch-failure outcome (print the diagnostic with the raw envelope,
return `None`) with zero status or message calls; an envelope whose
`data` object lacks the conversation identifier instead raises
`KeyError('conversation_id')`, likewise before any status or message
call. -/
theorem c2_amended_dispatch_failure
    : (∀ (env : PollEnv) (n : Nat), env.chatResult.data = none →
        chat_with_polling env n = ⟨PyResult.ret none, [dispatchMsg env.chatResult], []⟩) ∧
      (∀ (env : PollEnv) (n : Nat) (d : DispatchData),
        env.chatResult.data = some d → d.conversation_id = none →
        chat_with_polling env n = ⟨PyResult.keyError "conversation_id", [], []⟩) := by
  constructor
  · intro env n h
    simp [chat_with_polling, h]
  · intro env n d hd hc
    simp [chat_with_polling, hd, hc]

/-- Closed witness for the amended C2, at both concrete envelopes. -/
theorem c2_witness :
    (envNoData.chatResult.data = none ∧
      chat_with_polling envNoData 4 = ⟨PyResult.ret none, [dispatchMsg envNoData.chatResult], []⟩) ∧
    chat_with_polling envNoIds 4 = ⟨PyResult.keyError "conversation_id", [], []⟩ :=
  ⟨⟨rfl, c2_amended_dispatch_failure.1 envNoData 4 rfl⟩,
    c2_amended_dispatch_failure.2 envNoIds 4 ⟨none, none⟩ rfl rfl⟩

/-- C5: after a successful dispatch returning the pair
(conv_id, chat_id), every `retrieve_chat` and every `get_messages` call
of the run is keyed by exactly that pair — no other pair is ever
substituted. -/
theorem c5_polling_uses_dispatched_pair
    (env : PollEnv) (n : Nat) (conv_id chat_id : String)
    (hd : env.chatResult.data = some ⟨some conv_id, some chat_id⟩) :
    ∀ c ∈ (chat_with_polling env n).calls,
      c = Call.retrieveChat conv_id chat_id ∨ c = Call.getMessages conv_id chat_id := by
  intro c hc
  simp only [chat_with_polling, hd] at hc
  rcases pollLoop_calls_mem env conv_id chat_id n 0 0 [] [] c hc with h | h
  · exact absurd h (List.not_mem_nil c)
  · exact h

/-- Closed witness for C5: a run that made a `get_messages` call, with
the theorem applied to that concrete call. -/
theorem c5_witness :
    (envHappy.chatResult.data = some ⟨some "c0", some "h0"⟩ ∧
      Call.getMessages "c0" "h0" ∈ (chat_with_polling envHappy 5).calls) ∧
    (Call.getMessages "c0" "h0" = Call.retrieveChat "c0" "h0" ∨
      Call.getMessages "c0" "h0" = Call.getMessages "c0" "h0") :=
  ⟨⟨rfl, by decide⟩,
    c5_polling_uses_dispatched_pair envHappy 5 "c0" "h0" rfl
      (Call.getMessages "c0" "h0") (by decide)⟩

/-- C8: if the first fetched status is `failed`, the run prints the
remote-failure diagnostic and returns `None` after exactly one status
check, with zero `get_messages` calls and no further iterations — the
whole call trace is that single `retrieve_chat`. -/
theorem c8_first_status_failed
    (env : PollEnv) (n : Nat) (conv_id chat_id : String)
    (hd : env.chatResult.data = some ⟨some conv_id, some chat_id⟩)
    (hn : 1 ≤ n)
    (h0 : statusOf (env.statusResponses 0) = "failed") :
    chat_with_polling env n =
      ⟨PyResult.ret none, ["对话失败"], [Call.retrieveChat conv_id chat_id]⟩ := by
  obtain ⟨k, rfl⟩ : ∃ k, n = k + 1 := ⟨n - 1, by omega⟩
  have hne : ("failed" : String) ≠ "completed" := by decide
  simp [chat_with_polling, hd, pollLoop, h0, hne]

/-- Closed witness for C8 at a concrete environment. -/
theorem c8_witness :
    statusOf (envFailedFirst.statusResponses 0) = "failed" ∧
    chat_with_polling envFailedFirst 7 =
      ⟨PyResult.ret none, ["对话失败"], [Call.retrieveChat "c4" "h4"]⟩ :=
  ⟨rfl, c8_first_status_failed envFailedFirst 7 "c4" "h4" rfl (by omega) rfl⟩

/-- C7: the poller is bounded and terminating.  The loop is structurally
recursive on the retry budget, so every run terminates by construction;
the theorem states (1) every run — dispatch failures included — makes at
most `max_retries` status checks, and (2) on a successful dispatch whose
first `max_retries` statuses are all `in_progress`, the run is exactly
the timeout outcome: `max_retries` status checks, no message fetch, the
timeout diagnostic, return `None`. -/
theorem c7_bounded_polling_and_timeout
    : (∀ (env : PollEnv) (n : Nat),
        (chat_with_polling env n).calls.countP isStatusCall ≤ n) ∧
      (∀ (env : PollEnv) (n : Nat) (conv_id chat_id : String),
        env.chatResult.data = some ⟨some conv_id, some chat_id⟩ →
        (∀ i, i < n → statusOf (env.statusResponses i) = "in_progress") →
        chat_with_polling env n =
          ⟨PyResult.ret none, ["轮询超时"],
            List.replicate n (Call.retrieveChat conv_id chat_id)⟩) := by
  constructor
  · intro env n
    cases hd : env.chatResult.data with
    | none => simp [chat_with_polling, hd]
    | some d =>
      cases hc : d.conversation_id with
      | none => simp [chat_with_polling, hd, hc]
      | some conv_id =>
        cases hh : d.id with
        | none => simp [chat_with_polling, hd, hc, hh]
        | some chat_id =>
          have h := pollLoop_statusCount env conv_id chat_id n 0 0 [] []
          simp only [List.countP_nil, Nat.zero_add] at h
          simpa [chat_with_polling, hd, hc, hh] using h
  · intro env n conv_id chat_id hd hall
    have ht := pollLoop_timeout env conv_id chat_id n 0 0 [] []
      (fun j _ hj => by
        rw [hall j (by omega)]
        exact ⟨by decide, by decide⟩)
    simpa [chat_with_polling, hd] using ht

/-- Closed witness for C7 at a concrete all-`in_progress` environment. -/
theorem c7_witness :
    (chat_with_polling envAllProgress 3).calls.countP isStatusCall ≤ 3 ∧
    chat_with_polling envAllProgress 3 =
      ⟨PyResult.ret none, ["轮询超时"],
        List.replicate 3 (Call.retrieveChat "c1" "h1")⟩ :=
  ⟨c7_bounded_polling_and_timeout.1 envAllProgress 3,
    c7_bounded_polling_and_timeout.2 envAllProgress 3 "c1" "h1" rfl (fun _ _ => rfl)⟩

/-- C10: a status envelope with no `data` field, or whose `data` object
has no `status` field, reads as the empty status, which is neither
`completed` nor `failed`: (1) such an iteration makes its status check
and continues to the next iteration unchanged — no exception, no failure
return; (2) hence a run all of whose status envelopes lack these fields
polls its whole budget and ends in the timeout outcome. -/
theorem c10_missing_status_is_indeterminate
    : (∀ (env : PollEnv) (conv_id chat_id : String) (fuel i m : Nat)
        (calls : List Call) (log : List String),
        ((env.statusResponses i).data = none ∨
          ((env.statusResponses i).data.bind StatusData.status) = none) →
        statusOf (env.statusResponses i) = "" ∧
        pollLoop env conv_id chat_id (fuel + 1) i m calls log =
          pollLoop env conv_id chat_id fuel (i + 1) m
            (calls ++ [Call.retrieveChat conv_id chat_id]) log) ∧
      (∀ (env : PollEnv) (n : Nat) (conv_id chat_id : String),
        env.chatResult.data = some ⟨some conv_id, some chat_id⟩ →
        (∀ i, i < n → (env.statusResponses i).data = none ∨
          ((env.statusResponses i).data.bind StatusData.status) = none) →
        chat_with_polling env n =
          ⟨PyResult.ret none, ["轮询超时"],
            List.replicate n (Call.retrieveChat conv_id chat_id)⟩) := by
  have hstat : ∀ e : StatusEnvelope,
      e.data = none ∨ (e.data.bind StatusData.status) = none → statusOf e = "" := by
    intro e he
    rcases he with h | h
    · simp [statusOf, h]
    · simp [statusOf, h]
  constructor
  · intro env conv_id chat_id fuel i m calls log he
    have hs := hstat _ he
    refine ⟨hs, ?_⟩
    have h1 : ¬ statusOf (env.statusResponses i) = "completed" := by
      rw [hs]; decide
    have h2 : ¬ statusOf (env.statusResponses i) = "failed" := by
      rw [hs]; decide
    simp only [pollLoop]
    rw [if_neg h1, if_neg h2]
  · intro env n conv_id chat_id hd hall
    have ht := pollLoop_timeout env conv_id chat_id n 0 0 [] []
      (fun j _ hj => by
        rw [hstat _ (hall j (by omega))]
        exact ⟨by decide, by decide⟩)
    simpa [chat_with_polling, hd] using ht

/-- Closed witness for C10 at a concrete environment whose status
envelopes all lack the `data` object. -/
theorem c10_witness :
    (statusOf (envNoStatus.statusResponses 0) = "" ∧
      pollLoop envNoStatus "c2" "h2" 1 0 0 [] [] =
        pollLoop envNoStatus "c2" "h2" 0 1 0 [Call.retrieveChat "c2" "h2"] []) ∧
    chat_with_polling envNoStatus 2 =
      ⟨PyResult.ret none, ["轮询超时"],
        List.replicate 2 (Call.retrieveChat "c2" "h2")⟩ :=
  ⟨by
    have h := c10_missing_status_is_indeterminate.1 envNoStatus "c2" "h2" 0 0 0 [] []
      (Or.inl rfl)
    simpa using h,
    c10_missing_status_is_indeterminate.2 envNoStatus 2 "c2" "h2" rfl
      (fun _ _ => Or.inl rfl)⟩

/-- C6: on a `completed` status the poller fetches the message list once
and returns the content of the first message in list order whose role is
`assistant` and type is `answer`; absent such a message it keeps
looping.  Part 1: on statuses [in_progress, in_progress, completed] with
the answer present (behind any prefix of non-answer messages), the run
returns that answer after exactly three status checks and one message
fetch.  Part 2: a `completed` iteration whose list holds no answer does
not fail — the next iteration runs and can return the answer, at one
message fetch per `completed` iteration. -/
theorem c6_completed_returns_first_answer
    : (∀ (env : PollEnv) (n : Nat) (conv_id chat_id : String)
        (pre post : List Message) (msg : Message) (answer : String),
        env.chatResult.data = some ⟨some conv_id, some chat_id⟩ →
        3 ≤ n →
        statusOf (env.statusResponses 0) = "in_progress" →
        statusOf (env.statusResponses 1) = "in_progress" →
        statusOf (env.statusResponses 2) = "completed" →
        (env.messageResponses 0).data = some (pre ++ msg :: post) →
        (∀ m2 ∈ pre, ¬(m2.role = some "assistant" ∧ m2.type = some "answer")) →
        msg.role = some "assistant" → msg.type = some "answer" →
        msg.content = some answer →
        chat_with_polling env n =
          ⟨PyResult.ret (some answer), [],
            [Call.retrieveChat conv_id chat_id, Call.retrieveChat conv_id chat_id,
             Call.retrieveChat conv_id chat_id, Call.getMessages conv_id chat_id]⟩) ∧
      (∀ (env : PollEnv) (n : Nat) (conv_id chat_id : String) (answer : String),
        env.chatResult.data = some ⟨some conv_id, some chat_id⟩ →
        2 ≤ n →
        statusOf (env.statusResponses 0) = "completed" →
        findAnswer ((env.messageResponses 0).data.getD []) = none →
        statusOf (env.statusResponses 1) = "completed" →
        findAnswer ((env.messageResponses 1).data.getD []) = some answer →
        chat_with_polling env n =
          ⟨PyResult.ret (some answer), [],
            [Call.retrieveChat conv_id chat_id, Call.getMessages conv_id chat_id,
             Call.retrieveChat conv_id chat_id, Call.getMessages conv_id chat_id]⟩) := by
  constructor
  · intro env n conv_id chat_id pre post msg answer hd hn h0 h1 h2 hmsgs hpre hrole htype hcontent
    obtain ⟨k, rfl⟩ : ∃ k, n = k + 1 + 1 + 1 := ⟨n - 3, by omega⟩
    have hfa : findAnswer ((env.messageResponses 0).data.getD []) = some answer := by
      rw [hmsgs]
      simpa [hcontent] using findAnswer_append pre post msg hpre hrole htype
    have hne1 : ("in_progress" : String) ≠ "completed" := by decide
    have hne2 : ("in_progress" : String) ≠ "failed" := by decide
    simp [chat_with_polling, hd, pollLoop, h0, h1, h2, hfa, hne1, hne2]
  · intro env n conv_id chat_id answer hd hn h0 hfa0 h1 hfa1
    obtain ⟨k, rfl⟩ : ∃ k, n = k + 1 + 1 := ⟨n - 2, by omega⟩
    simp [chat_with_polling, hd, pollLoop, h0, hfa0, h1, hfa1]

/-- Closed witness for C6 at the two concrete environments. -/
theorem c6_witness :
    (statusOf (envHappy.statusResponses 0) = "in_progress" ∧
      statusOf (envHappy.statusResponses 2) = "completed" ∧
      chat_with_polling envHappy 30 =
        ⟨PyResult.ret (some "hello"), [],
          [Call.retrieveChat "c0" "h0", Call.retrieveChat "c0" "h0",
           Call.retrieveChat "c0" "h0", Call.getMessages "c0" "h0"]⟩) ∧
    chat_with_polling envLateAnswer 2 =
      ⟨PyResult.ret (some "late"), [],
        [Call.retrieveChat "c3" "h3", Call.getMessages "c3" "h3",
         Call.retrieveChat "c3" "h3", Call.getMessages "c3" "h3"]⟩ :=
  ⟨⟨rfl, rfl,
    c6_completed_returns_first_answer.1 envHappy 30 "c0" "h0"
      [⟨some "user", some "question", some "hi"⟩] []
      ⟨some "assistant", some "answer", some "hello"⟩ "hello"
      rfl (by omega) rfl rfl rfl rfl (by decide) rfl rfl rfl⟩,
    c6_completed_returns_first_answer.2 envLateAnswer 2 "c3" "h3" "late"
      rfl (by omega) rfl rfl rfl (by decide)⟩

/-- C9: when the status is `completed` and the first assistant answer
message has no `content` field, `msg.get('content', '')` makes the run
return the empty string as its success result — a value whose Python
truthiness equals that of `None`, so a truthiness test cannot tell this
success from the no-result signal. -/
theorem c9_missing_content_returns_empty_string
    (env : PollEnv) (n : Nat) (conv_id chat_id : String)
    (pre post : List Message) (msg : Message)
    (hd : env.chatResult.data = some ⟨some conv_id, some chat_id⟩)
    (hn : 1 ≤ n)
    (h0 : statusOf (env.statusResponses 0) = "completed")
    (hmsgs : (env.messageResponses 0).data = some (pre ++ msg :: post))
    (hpre : ∀ m2 ∈ pre, ¬(m2.role = some "assistant" ∧ m2.type = some "answer"))
    (hrole : msg.role = some "assistant") (htype : msg.type = some "answer")
    (hcontent : msg.content = none) :
    (chat_with_polling env n).result = PyResult.ret (some "") ∧
    truthy (some "") = truthy none := by
  obtain ⟨k, rfl⟩ : ∃ k, n = k + 1 := ⟨n - 1, by omega⟩
  have hfa : findAnswer ((env.messageResponses 0).data.getD []) = some "" := by
    rw [hmsgs]
    simpa [hcontent] using findAnswer_append pre post msg hpre hrole htype
  constructor
  · simp [chat_with_polling, hd, pollLoop, h0, hfa]
  · rfl

/-- Closed witness for C9 at a concrete environment. -/
theorem c9_witness :
    statusOf (envNoContent.statusResponses 0) = "completed" ∧
    (chat_with_polling envNoContent 3).result = PyResult.ret (some "") ∧
    truthy (some "") = truthy none :=
  ⟨rfl,
    c9_missing_content_returns_empty_string envNoContent 3 "c5" "h5"
      [] [] ⟨some "assistant", some "answer", none⟩
      rfl (by omega) rfl rfl (by decide) rfl rfl rfl⟩

/-- Counterexample for C1: a run that times out and a run whose status is
`failed` return the identical value (`None`), so the caller cannot tell
the timeout outcome from the remote-failure outcome by what the function
returns; moreover the remote-failure diagnostic is the fixed line
`对话失败`, which carries no raw payload at all.  The outcomes are
distinguishable only through the printed lines, not in the surfaced
result, and remote failure surfaces no diagnostic payload — refuting the
claim as stated. -/
theorem c1_counterexample :
    (chat_with_polling envAllProgress 1).result = (chat_with_polling envFailedFirst 1).result ∧
    (chat_with_polling envAllProgress 1).result = PyResult.ret none ∧
    (chat_with_polling envFailedFirst 1).log = ["对话失败"] := by
  decide

/-- C1 as amended: every non-success run returns the same `None`; the
three non-success outcomes are told apart only by the diagnostic line
printed — a run returns `None` exactly when it printed the dispatch
failure line (which embeds the raw envelope), the remote-failure line
`对话失败`, or the timeout line `轮询超时` — and those three lines are
pairwise distinct.  Only the dispatch-failure line carries raw payload. -/
theorem c1_amended_outcomes_in_log_only
    : (∀ (env : PollEnv) (n : Nat),
        (chat_with_polling env n).result = PyResult.ret none ↔
          ((chat_with_polling env n).log = [dispatchMsg env.chatResult] ∨
           (chat_with_polling env n).log = ["对话失败"] ∨
           (chat_with_polling env n).log = ["轮询超时"])) ∧
      (∀ e : ChatEnvelope, dispatchMsg e ≠ "对话失败" ∧ dispatchMsg e ≠ "轮询超时") ∧
      ("对话失败" : String) ≠ "轮询超时" := by
  refine ⟨?_, ?_, by decide⟩
  · intro env n
    cases hd : env.chatResult.data with
    | none => simp [chat_with_polling, hd]
    | some d =>
      cases hc : d.conversation_id with
      | none => simp [chat_with_polling, hd, hc]
      | some conv_id =>
        cases hh : d.id with
        | none => simp [chat_with_polling, hd, hc, hh]
        | some chat_id =>
          simp only [chat_with_polling, hd, hc, hh]
          rcases pollLoop_outcomes env conv_id chat_id n 0 0 [] [] with
            ⟨⟨s, hres⟩, hlog⟩ | ⟨hres, hlog⟩
          · rw [hres, hlog]
            simp
          · rw [hres]
            rcases hlog with h | h <;> rw [h] <;> simp
  · intro e
    have e1 : ("发起对话失败: " : String).length = 8 := by decide
    constructor
    · intro h
      simp only [dispatchMsg] at h
      have h2 := congrArg String.length h
      rw [String.length_append, e1] at h2
      have e2 : ("对话失败" : String).length = 4 := by decide
      rw [e2] at h2
      omega
    · intro h
      simp only [dispatchMsg] at h
      have h2 := congrArg String.length h
      rw [String.length_append, e1] at h2
      have e2 : ("轮询超时" : String).length = 4 := by decide
      rw [e2] at h2
      omega

/-- Closed witness for the amended C1: the backward direction of the
characterization applied at a concrete timing-out run. -/
theorem c1_witness :
    (chat_with_polling envAllProgress 1).log = ["轮询超时"] ∧
    (chat_with_polling envAllProgress 1).result = PyResult.ret none :=
  ⟨by decide,
    (c1_amended_outcomes_in_log_only.1 envAllProgress 1).mpr (Or.inr (Or.inr (by decide)))⟩

end Coze
